import Mathlib

/-!
# Verification of the Bet Lifecycle Orchestrator (`src/server.js`)

Shallow embedding of the orchestrator logic of `server.js`:
the bet-creation handler (`handleNewBetEvent`), the price oracle client
(`fetchPrice`), the sample step (`fetchPriceAndUpdateBet`), the outcome
policy (`determineOutcome`) and the settlement submitter (`settleBet`),
together with the MongoDB-backed bet store (`Bet.save`, `Bet.updateOne`,
`Bet.findOne`) modelled as a list of documents.

JavaScript value peculiarities that matter to the code are modelled
explicitly: nullable price fields hold a `JSVal` which is `null`,
`undefined`, or a number; JS arithmetic coerces `null` to `0` and turns
`undefined` into `NaN`, and every comparison with `NaN` is false.
-/

namespace PodServer

/-- A JavaScript value as stored in the nullable price fields of a bet:
`null`, `undefined`, or a finite number (modelled as a rational). -/
inductive JSVal : Type
  | vnull : JSVal
  | vundef : JSVal
  | vnum : ℚ → JSVal
  deriving DecidableEq, Repr

/-- JS numeric coercion of a `JSVal` as used by the `-` operator of
`determineOutcome`: `null` coerces to `0`, `undefined` to `NaN`
(modelled as `none`), a number to itself. -/
def jsToNum : JSVal → Option ℚ
  | JSVal.vnull => some 0
  | JSVal.vundef => none
  | JSVal.vnum q => some q

/-- The bet document of the mongoose `betSchema` (server.js lines 27-37).
The schema declares `outcome` a `String`, but the code only ever writes
`null` into it, so the field is kept as a `JSVal` like the prices. -/
structure Bet : Type where
  betId : ℕ
  finder : String
  tokenAddress : String
  startTime : ℤ
  totalBetAmount : ℕ
  initialPrice : JSVal
  finalPrice : JSVal
  settled : Bool
  outcome : JSVal
  deriving DecidableEq, Repr

/-- The MongoDB `bets` collection: a list of documents in insertion
order.  The schema has no unique index on `betId`, so documents with
equal `betId` can coexist. -/
abbrev Store : Type := List Bet

/-- Mongoose `new Bet(...).save()`: it inserts a fresh document at the end
of the collection. -/
def save (store : Store) (b : Bet) : Store := store ++ [b]

/-- Mongoose `Bet.updateOne({ betId }, f)`: apply the update to the FIRST
document whose `betId` matches; a no-op when none matches. -/
def updateOne (store : Store) (betId : ℕ) (f : Bet → Bet) : Store :=
  match store with
  | [] => []
  | b :: rest =>
      if b.betId = betId then f b :: rest else b :: updateOne rest betId f

/-- Mongoose `Bet.findOne({ betId })`: the first document with this `betId`,
or `null` when there is none. -/
def findOne (store : Store) (betId : ℕ) : Option Bet :=
  store.find? (fun b => b.betId = betId)

/-- The payload of the `BetInitialized` chain event
(`{betId, finder, tokenAddress, betAmount}`). -/
structure BetEvent : Type where
  betId : ℕ
  finder : String
  tokenAddress : String
  betAmount : ℕ
  deriving DecidableEq, Repr

/-- Which price field a scheduled sample step writes (the `priceKey`
string argument of `fetchPriceAndUpdateBet`). -/
inductive PriceKey : Type
  | initialPrice : PriceKey
  | finalPrice : PriceKey
  deriving DecidableEq, Repr

/-- One `setTimeout(() => fetchPriceAndUpdateBet(tokenAddress, betId,
priceKey), delayMs)` call: an in-memory timer. -/
structure ScheduledSample : Type where
  delayMs : ℕ
  tokenAddress : String
  betId : ℕ
  priceKey : PriceKey
  deriving DecidableEq, Repr

/-- Writing `price` into the bet field named by `priceKey`
(the `$set: { [priceKey]: price }` update). -/
def setPriceField (b : Bet) (priceKey : PriceKey) (price : JSVal) : Bet :=
  match priceKey with
  | PriceKey.initialPrice => { b with initialPrice := price }
  | PriceKey.finalPrice => { b with finalPrice := price }

/-- Function `handleNewBetEvent` (server.js lines 57-79): unconditionally build a
new document with null prices, `settled=false`, null outcome, save it,
and schedule the two sample timers at 5 and 11 minutes.  The code
performs no lookup of an existing document for this `betId` before
saving.  `now` is the wall-clock instant `new Date()`. -/
def handleNewBetEvent (betData : BetEvent) (now : ℤ) (store : Store) :
    Store × List ScheduledSample :=
  let newBet : Bet :=
    { betId := betData.betId
      finder := betData.finder
      tokenAddress := betData.tokenAddress
      startTime := now
      totalBetAmount := betData.betAmount
      initialPrice := JSVal.vnull
      finalPrice := JSVal.vnull
      settled := false
      outcome := JSVal.vnull }
  (save store newBet,
   [{ delayMs := 5 * 60 * 1000, tokenAddress := betData.tokenAddress,
      betId := betData.betId, priceKey := PriceKey.initialPrice },
    { delayMs := 11 * 60 * 1000, tokenAddress := betData.tokenAddress,
      betId := betData.betId, priceKey := PriceKey.finalPrice }])

/-- One trading pair of the dexscreener feed response; `priceUsd` may be
absent from the pair object (then reading it yields `undefined`). -/
structure Pair : Type where
  priceUsd : Option ℚ
  deriving DecidableEq, Repr

/-- The body of a successful feed response; `pairs` may be absent or
`null` (`none`) or a list. -/
structure FeedResponse : Type where
  pairs : Option (List Pair)
  deriving DecidableEq, Repr

/-- Function `fetchPrice` (server.js lines 81-91).  The argument is the HTTP
outcome: `none` when the request fails (the `catch` returns `null`);
otherwise the response body.  The code evaluates
`response.data.pairs && response.data.pairs[0] ? response.data.pairs[0].priceUsd : null`:
an absent/`null` `pairs` is falsy, an empty list makes `pairs[0]`
undefined hence falsy, and a present first pair yields its `priceUsd`,
which is `undefined` when the pair has no such field. -/
def fetchPrice (response : Option FeedResponse) : JSVal :=
  match response with
  | none => JSVal.vnull
  | some r =>
      match r.pairs with
      | none => JSVal.vnull
      | some [] => JSVal.vnull
      | some (p :: _) =>
          match p.priceUsd with
          | none => JSVal.vundef
          | some q => JSVal.vnum q

/-- Function `determineOutcome` (server.js lines 110-121): `priceChange =
finalPrice - initialPrice`, threshold `0.00`; `> threshold` returns
`true` (Pump), `< -threshold` returns `false` (Dump), otherwise `null`
(No Change).  JS coercion applies to the subtraction, and if either
operand is `undefined` the difference is `NaN`, both comparisons are
false, and the result is `null`. -/
def determineOutcome (initialPrice finalPrice : JSVal) : Option Bool :=
  match jsToNum finalPrice, jsToNum initialPrice with
  | some f, some i =>
      let priceChange := f - i
      let threshold : ℚ := 0
      if priceChange > threshold then some true
      else if priceChange < -threshold then some false
      else none
  | _, _ => none

/-- The outcome vocabulary of the spec; the comments inside
`determineOutcome` name its three results Pump, Dump and No Change. -/
inductive Outcome : Type
  | Pump : Outcome
  | Dump : Outcome
  | NoChange : Outcome
  deriving DecidableEq, Repr

/-- The reading of the JS result of `determineOutcome` documented by
the code comments: `true` is Pump, `false` is Dump, `null` is No Change. -/
def outcomeMeaning : Option Bool → Outcome
  | some true => Outcome.Pump
  | some false => Outcome.Dump
  | none => Outcome.NoChange

/-- The `settleBet(betId, outcome)` call issued at the end of a final
sample step. -/
structure SettleInvocation : Type where
  betId : ℕ
  outcome : Option Bool
  deriving DecidableEq, Repr

/-- Function `fetchPriceAndUpdateBet` (server.js lines 93-108).  Fetch the
price; if it is not strictly `null` (note: `undefined !== null` is
true), write it to the `priceKey` field of the bet; when the key is
`finalPrice`, re-read the bet, compute the outcome from its stored
prices and invoke `settleBet`.  The overall result is `none` exactly
when `findOne` returns `null` and the subsequent `bet.initialPrice`
access throws a TypeError; otherwise it is the updated store paired
with the `settleBet` invocation made, if any. -/
def fetchPriceAndUpdateBet (response : Option FeedResponse) (betId : ℕ)
    (priceKey : PriceKey) (store : Store) :
    Option (Store × Option SettleInvocation) :=
  let price := fetchPrice response
  if price ≠ JSVal.vnull then
    let store1 := updateOne store betId (fun b => setPriceField b priceKey price)
    if priceKey = PriceKey.finalPrice then
      match findOne store1 betId with
      | some bet =>
          some (store1,
            some { betId := betId,
                   outcome := determineOutcome bet.initialPrice bet.finalPrice })
      | none => none
    else
      some (store1, none)
  else
    some (store, none)

/-- The encoded settlement contract call: `settleBetNoChange(betId)`
when the outcome is `null`, otherwise `settleBet(betId, outcome)` with
the boolean pump/dump flag. -/
inductive TxData : Type
  | settleBetNoChange : ℕ → TxData
  | settleBet : ℕ → Bool → TxData
  deriving DecidableEq, Repr

/-- The transaction object assembled by `settleBet` (server.js lines
183-189); `from`/`to` are process constants and omitted. -/
structure TxObject : Type where
  data : TxData
  gas : ℕ
  gasPrice : ℕ
  deriving DecidableEq, Repr

/-- The blockchain collaborators `settleBet` calls, each of which can
fail independently; an `Except.error` models the promise rejecting. -/
structure ChainEnv : Type where
  estimateGas : Except String ℕ
  getGasPrice : Except String ℕ
  signTransaction : TxObject → Except String String
  sendSignedTransaction : String → Except String String

/-- What `settleBet` prints at the end: the success log with the
receipt, or the generic error log of the `catch` block. -/
inductive SettleLog : Type
  | betSettled : String → SettleLog
  | errorSettling : String → SettleLog
  deriving DecidableEq, Repr

/-- The observable result of one `settleBet` call: the store as the
function leaves it, the transactions it handed to
`sendSignedTransaction`, and its final log line. -/
structure SettleOutput : Type where
  store : Store
  sends : List TxObject
  log : SettleLog
  deriving DecidableEq, Repr

/-- Function `settleBet` (server.js lines 154-200).  Encode the call from the
outcome, estimate gas, add the 10% buffer (`Math.floor(gasEstimate *
0.1)`), fetch the gas price, sign, and broadcast; any rejection lands
in the single `catch`, which only logs `"Error settling bet:"` with the
raw error.  The function reads and writes nothing in the bet store: in
particular it never consults nor updates the `settled` flag.  The
store is threaded through unchanged to make that explicit. -/
def settleBet (env : ChainEnv) (betId : ℕ) (outcome : Option Bool)
    (store : Store) : SettleOutput :=
  let txData :=
    match outcome with
    | none => TxData.settleBetNoChange betId
    | some b => TxData.settleBet betId b
  match env.estimateGas with
  | Except.error e => { store := store, sends := [], log := SettleLog.errorSettling e }
  | Except.ok gasEstimate =>
      let gasBuffer := gasEstimate / 10
      let gasWithBuffer := gasEstimate + gasBuffer
      match env.getGasPrice with
      | Except.error e => { store := store, sends := [], log := SettleLog.errorSettling e }
      | Except.ok gasPrice =>
          let tx : TxObject := { data := txData, gas := gasWithBuffer, gasPrice := gasPrice }
          match env.signTransaction tx with
          | Except.error e => { store := store, sends := [], log := SettleLog.errorSettling e }
          | Except.ok signedTx =>
              match env.sendSignedTransaction signedTx with
              | Except.error e =>
                  { store := store, sends := [tx], log := SettleLog.errorSettling e }
              | Except.ok receipt =>
                  { store := store, sends := [tx], log := SettleLog.betSettled receipt }

/-- The submission phase at which a settlement attempt first fails,
`none` when every phase succeeds.  This follows the sequential order of
the calls inside `settleBet`. -/
inductive Phase : Type
  | estimation : Phase
  | gasPriceFetch : Phase
  | signing : Phase
  | broadcast : Phase
  deriving DecidableEq, Repr

/-- The first failing phase of a `settleBet` run against `env`, if
any, replaying the same sequence of collaborator calls. -/
def failingPhase (env : ChainEnv) (betId : ℕ) (outcome : Option Bool) :
    Option Phase :=
  let txData :=
    match outcome with
    | none => TxData.settleBetNoChange betId
    | some b => TxData.settleBet betId b
  match env.estimateGas with
  | Except.error _ => some Phase.estimation
  | Except.ok gasEstimate =>
      let gasWithBuffer := gasEstimate + gasEstimate / 10
      match env.getGasPrice with
      | Except.error _ => some Phase.gasPriceFetch
      | Except.ok gasPrice =>
          let tx : TxObject := { data := txData, gas := gasWithBuffer, gasPrice := gasPrice }
          match env.signTransaction tx with
          | Except.error _ => some Phase.signing
          | Except.ok signedTx =>
              match env.sendSignedTransaction signedTx with
              | Except.error _ => some Phase.broadcast
              | Except.ok _ => none

/-- One top-level effect of `server.js` at process start (lines 1-55,
123-152, 202-204): connect to MongoDB, subscribe to the
`BetInitialized` event stream, register the `/api/bet/:betId` route,
and start listening.  No top-level statement reads the bet store, and
`setTimeout` occurs nowhere outside `handleNewBetEvent`. -/
inductive StartupEffect : Type
  | connectMongo : StartupEffect
  | subscribeBetInitialized : StartupEffect
  | registerBetRoute : StartupEffect
  | listen : StartupEffect
  deriving DecidableEq, Repr

/-- The effects `server.js` performs at process start, in order. -/
def serverStartup : List StartupEffect :=
  [StartupEffect.connectMongo, StartupEffect.subscribeBetInitialized,
   StartupEffect.registerBetRoute, StartupEffect.listen]

/-- The sample steps scheduled at process start as a function of the
stored bets: none of the startup effects in `serverStartup` queries the
store or arms a timer (`setTimeout` appears only inside
`handleNewBetEvent`, which runs on a fresh chain event), so the list is
empty whatever the store holds. -/
def startupScheduledSamples (_store : Store) : List ScheduledSample := []

/-! ## Concrete fixtures -/

/-- Chain environment in which every settlement phase succeeds. -/
def envOK : ChainEnv :=
  { estimateGas := Except.ok 21000
    getGasPrice := Except.ok 7
    signTransaction := fun _ => Except.ok "0xsigned"
    sendSignedTransaction := fun _ => Except.ok "0xreceipt" }

/-- Chain environment whose gas estimation rejects. -/
def envEstimationFail : ChainEnv :=
  { estimateGas := Except.error "boom"
    getGasPrice := Except.ok 7
    signTransaction := fun _ => Except.ok "0xsigned"
    sendSignedTransaction := fun _ => Except.ok "0xreceipt" }

/-- Chain environment whose gas price fetch rejects. -/
def envGasPriceFail : ChainEnv :=
  { estimateGas := Except.ok 21000
    getGasPrice := Except.error "boom"
    signTransaction := fun _ => Except.ok "0xsigned"
    sendSignedTransaction := fun _ => Except.ok "0xreceipt" }

/-- A stored bet already marked settled, with both prices recorded. -/
def betSettled : Bet :=
  { betId := 1, finder := "0xF", tokenAddress := "0xT", startTime := 0,
    totalBetAmount := 50, initialPrice := JSVal.vnum 100,
    finalPrice := JSVal.vnum 105, settled := true, outcome := JSVal.vnull }

/-- A stored bet with both prices recorded and not yet settled. -/
def betWithBoth : Bet :=
  { betId := 1, finder := "0xF", tokenAddress := "0xT", startTime := 0,
    totalBetAmount := 50, initialPrice := JSVal.vnum 100,
    finalPrice := JSVal.vnum 105, settled := false, outcome := JSVal.vnull }

/-- A stored bet with only the initial price recorded. -/
def betWithInitial : Bet :=
  { betId := 1, finder := "0xF", tokenAddress := "0xT", startTime := 0,
    totalBetAmount := 50, initialPrice := JSVal.vnum 100,
    finalPrice := JSVal.vnull, settled := false, outcome := JSVal.vnull }

/-- A bet stored twenty minutes before process start, with no recorded
prices and not settled. -/
def staleBet : Bet :=
  { betId := 2, finder := "0xF", tokenAddress := "0xT",
    startTime := -(20 * 60 * 1000), totalBetAmount := 50,
    initialPrice := JSVal.vnull, finalPrice := JSVal.vnull,
    settled := false, outcome := JSVal.vnull }

/-- A bet creation event fixture. -/
def event1 : BetEvent :=
  { betId := 1, finder := "0xF", tokenAddress := "0xT", betAmount := 50 }

/-- A feed response quoting a USD price of 100. -/
def resp100 : Option FeedResponse := some { pairs := some [{ priceUsd := some 100 }] }

/-- A feed response quoting a USD price of 105. -/
def resp105 : Option FeedResponse := some { pairs := some [{ priceUsd := some 105 }] }

/-- A feed response whose single pair has no `priceUsd` field. -/
def respNoPriceUsd : Option FeedResponse := some { pairs := some [{ priceUsd := none }] }

/-! ## Helper lemmas -/

/-- When the fetched price is null, the sample step leaves the store
untouched and invokes nothing. -/
theorem fetchPriceAndUpdateBet_of_null (response : Option FeedResponse)
    (betId : ℕ) (priceKey : PriceKey) (store : Store)
    (h : fetchPrice response = JSVal.vnull) :
    fetchPriceAndUpdateBet response betId priceKey store = some (store, none) := by
  unfold fetchPriceAndUpdateBet
  simp [h]

/-- An initial sample step with a non-null price on a singleton store
writes `initialPrice` and invokes nothing. -/
theorem fetchPriceAndUpdateBet_initial_singleton (response : Option FeedResponse)
    (b : Bet) (h : fetchPrice response ≠ JSVal.vnull) :
    fetchPriceAndUpdateBet response b.betId PriceKey.initialPrice [b] =
      some ([{ b with initialPrice := fetchPrice response }], none) := by
  unfold fetchPriceAndUpdateBet updateOne setPriceField
  simp [h]

/-- A final sample step with a non-null price on a singleton store
writes `finalPrice`, re-reads the bet and invokes `settleBet` with the
outcome computed from the stored prices. -/
theorem fetchPriceAndUpdateBet_final_singleton (response : Option FeedResponse)
    (b : Bet) (h : fetchPrice response ≠ JSVal.vnull) :
    fetchPriceAndUpdateBet response b.betId PriceKey.finalPrice [b] =
      some ([{ b with finalPrice := fetchPrice response }],
        some { betId := b.betId,
               outcome := determineOutcome b.initialPrice (fetchPrice response) }) := by
  unfold fetchPriceAndUpdateBet updateOne setPriceField findOne
  simp [h, List.find?]

/-! ## Claims -/

/-- C1: the claim states that `Settle` is guarded by a per-bet
exclusivity check on the stored `settled` flag, so that with
`settled = true` an invocation is a no-op and no bet is submitted for
settlement twice.  The code contradicts this: `settleBet` never reads
the bet store, so on a bet stored with `settled = true` it still
signs and hands a settlement transaction to the chain, and a second
invocation submits a second one. -/
theorem c1_settleBet_lacks_settled_guard :
    betSettled.settled = true ∧
    (settleBet envOK 1 (some true) [betSettled]).sends =
      [{ data := TxData.settleBet 1 true, gas := 23100, gasPrice := 7 }] ∧
    (settleBet envOK 1 (some true)
        (settleBet envOK 1 (some true) [betSettled]).store).sends =
      [{ data := TxData.settleBet 1 true, gas := 23100, gasPrice := 7 }] := by
  decide

/-- C2: the claim states that on confirmed broadcast the store is
updated with `settled = true`.  The code contradicts this: after a
successful `sendSignedTransaction`, `settleBet` only logs the receipt
and performs no store write, so the bet stays `settled = false`. -/
theorem c2_confirmed_broadcast_does_not_update_store :
    (settleBet envOK 1 (some true) [betWithBoth]).log =
      SettleLog.betSettled "0xreceipt" ∧
    (settleBet envOK 1 (some true) [betWithBoth]).store = [betWithBoth] ∧
    betWithBoth.settled = false := by
  decide

/-- C3: the claim states that bet creation is idempotent in `betId`.
The code contradicts this: `handleNewBetEvent` never checks the store,
so replaying the same creation event inserts a second document with
the same `betId` and arms a second, identical pair of sample timers. -/
theorem c3_duplicate_create_inserts_second_record :
    ((handleNewBetEvent event1 0 (handleNewBetEvent event1 0 []).1).1.filter
        (fun b => b.betId == 1)).length = 2 ∧
    (handleNewBetEvent event1 0 (handleNewBetEvent event1 0 []).1).2 =
      (handleNewBetEvent event1 0 []).2 := by
  decide

/-- C4: for numeric recorded prices the computed outcome follows the
zero-threshold policy on `delta = finalPrice - initialPrice`:
positive delta gives Pump, negative gives Dump, zero gives No Change. -/
theorem c4_outcome_policy (i f : ℚ) :
    (f - i > 0 →
      outcomeMeaning (determineOutcome (JSVal.vnum i) (JSVal.vnum f)) = Outcome.Pump) ∧
    (f - i < 0 →
      outcomeMeaning (determineOutcome (JSVal.vnum i) (JSVal.vnum f)) = Outcome.Dump) ∧
    (f - i = 0 →
      outcomeMeaning (determineOutcome (JSVal.vnum i) (JSVal.vnum f)) = Outcome.NoChange) := by
  refine ⟨fun h => ?_, fun h => ?_, fun h => ?_⟩
  · simp [determineOutcome, jsToNum, outcomeMeaning, h]
  · have h1 : ¬ f - i > 0 := by linarith
    simp [determineOutcome, jsToNum, outcomeMeaning, h, h1]
  · simp [determineOutcome, jsToNum, outcomeMeaning, h]

/-- Witness for C4 at the concrete prices named by the spec. -/
theorem c4_outcome_policy_witness :
    outcomeMeaning (determineOutcome (JSVal.vnum 100) (JSVal.vnum 105)) = Outcome.Pump ∧
    outcomeMeaning (determineOutcome (JSVal.vnum 100) (JSVal.vnum 95)) = Outcome.Dump ∧
    outcomeMeaning (determineOutcome (JSVal.vnum 100) (JSVal.vnum 100)) = Outcome.NoChange :=
  ⟨(c4_outcome_policy 100 105).1 (by norm_num),
   (c4_outcome_policy 100 95).2.1 (by norm_num),
   (c4_outcome_policy 100 100).2.2 (by norm_num)⟩

/-- C5: the claim states that at process start the orchestrator rescans
the store and immediately re-arms overdue sample steps.  The code
contradicts this: the startup of server.js schedules no sample step
whatever the store contains — in particular not for a stored bet whose
`startTime` lies twenty minutes in the past with both prices still
null and `settled = false`. -/
theorem c5_startup_schedules_no_samples :
    (∀ store : Store, startupScheduledSamples store = []) ∧
    startupScheduledSamples [staleBet] = [] ∧
    staleBet.startTime = -(20 * 60 * 1000) ∧
    staleBet.initialPrice = JSVal.vnull ∧
    staleBet.finalPrice = JSVal.vnull ∧
    staleBet.settled = false :=
  ⟨fun _ => rfl, rfl, rfl, rfl, rfl, rfl⟩

/-- C6: the claim states that the stored `outcome` field is set exactly
when both prices are non-null.  The code contradicts this: the final
sample step computes the outcome only into a local variable handed to
`settleBet` and never writes it to the store, so after the final
sample both stored prices are non-null while the stored `outcome` is
still null. -/
theorem c6_outcome_not_persisted :
    fetchPriceAndUpdateBet resp105 1 PriceKey.finalPrice [betWithInitial] =
      some ([{ betWithInitial with finalPrice := JSVal.vnum 105 }],
        some { betId := 1, outcome := some true }) ∧
    ({ betWithInitial with finalPrice := JSVal.vnum 105 }).initialPrice = JSVal.vnum 100 ∧
    ({ betWithInitial with finalPrice := JSVal.vnum 105 }).outcome = JSVal.vnull := by
  refine ⟨?_, rfl, rfl⟩
  norm_num [fetchPriceAndUpdateBet, fetchPrice, resp105, betWithInitial, updateOne,
    setPriceField, findOne, List.find?, determineOutcome, jsToNum]
  exact fun hcontr => JSVal.noConfusion hcontr

/-- C7 counterexample: with the initial sample dropped (the feed
request failed, so `fetchPrice` returned null and no update happened)
and the final sample succeeding at 105, the resulting store holds the
bet with `finalPrice = 105` while `initialPrice` is still null,
refuting the claimed invariant for this interleaving. -/
theorem c7_counterexample_dropped_initial :
    fetchPriceAndUpdateBet none 1 PriceKey.initialPrice
        (handleNewBetEvent event1 0 []).1 =
      some ((handleNewBetEvent event1 0 []).1, none) ∧
    fetchPriceAndUpdateBet resp105 1 PriceKey.finalPrice
        (handleNewBetEvent event1 0 []).1 =
      some ([{ betId := 1, finder := "0xF", tokenAddress := "0xT", startTime := 0,
               totalBetAmount := 50, initialPrice := JSVal.vnull,
               finalPrice := JSVal.vnum 105, settled := false,
               outcome := JSVal.vnull }],
        some { betId := 1, outcome := some true }) ∧
    JSVal.vnum 105 ≠ JSVal.vnull := by
  refine ⟨fetchPriceAndUpdateBet_of_null none 1 PriceKey.initialPrice _ rfl, ?_, by decide⟩
  norm_num [fetchPriceAndUpdateBet, fetchPrice, resp105, event1, handleNewBetEvent, save,
    updateOne, setPriceField, findOne, List.find?, determineOutcome, jsToNum]
  exact fun hcontr => JSVal.noConfusion hcontr

/-- C7 amended: for a freshly created bet, when the initial sample
step runs first and its fetch succeeds (non-null price), then after
the final sample step the store never holds the bet with a non-null
`finalPrice` and a null `initialPrice`; when the initial fetch is
dropped the final sample can still set `finalPrice` on its own. -/
theorem c7_amended_invariant_after_successful_initial (e : BetEvent) (now : ℤ)
    (r1 r2 : Option FeedResponse) (s1 s2 : Store)
    (inv1 inv2 : Option SettleInvocation)
    (h : fetchPrice r1 ≠ JSVal.vnull)
    (h1 : fetchPriceAndUpdateBet r1 e.betId PriceKey.initialPrice
            (handleNewBetEvent e now []).1 = some (s1, inv1))
    (h2 : fetchPriceAndUpdateBet r2 e.betId PriceKey.finalPrice s1 = some (s2, inv2)) :
    ∀ b ∈ s2, b.finalPrice ≠ JSVal.vnull → b.initialPrice ≠ JSVal.vnull := by
  have h1b : fetchPriceAndUpdateBet r1
      ({ betId := e.betId
         finder := e.finder
         tokenAddress := e.tokenAddress
         startTime := now
         totalBetAmount := e.betAmount
         initialPrice := JSVal.vnull
         finalPrice := JSVal.vnull
         settled := false
         outcome := JSVal.vnull } : Bet).betId
      PriceKey.initialPrice
      [{ betId := e.betId
         finder := e.finder
         tokenAddress := e.tokenAddress
         startTime := now
         totalBetAmount := e.betAmount
         initialPrice := JSVal.vnull
         finalPrice := JSVal.vnull
         settled := false
         outcome := JSVal.vnull }] = some (s1, inv1) := h1
  rw [fetchPriceAndUpdateBet_initial_singleton r1 _ h, Option.some.injEq,
    Prod.mk.injEq] at h1b
  obtain ⟨hs1, -⟩ := h1b
  subst hs1
  by_cases hr2 : fetchPrice r2 = JSVal.vnull
  · rw [fetchPriceAndUpdateBet_of_null r2 e.betId PriceKey.finalPrice _ hr2,
      Option.some.injEq, Prod.mk.injEq] at h2
    obtain ⟨hs2, -⟩ := h2
    subst hs2
    intro b hb hf
    simp only [List.mem_singleton] at hb
    subst hb
    exact absurd rfl hf
  · have h2b : fetchPriceAndUpdateBet r2
        ({ betId := e.betId
           finder := e.finder
           tokenAddress := e.tokenAddress
           startTime := now
           totalBetAmount := e.betAmount
           initialPrice := fetchPrice r1
           finalPrice := JSVal.vnull
           settled := false
           outcome := JSVal.vnull } : Bet).betId
        PriceKey.finalPrice
        [{ betId := e.betId
           finder := e.finder
           tokenAddress := e.tokenAddress
           startTime := now
           totalBetAmount := e.betAmount
           initialPrice := fetchPrice r1
           finalPrice := JSVal.vnull
           settled := false
           outcome := JSVal.vnull }] = some (s2, inv2) := h2
    rw [fetchPriceAndUpdateBet_final_singleton r2 _ hr2, Option.some.injEq,
      Prod.mk.injEq] at h2b
    obtain ⟨hs2, -⟩ := h2b
    subst hs2
    intro b hb hf
    simp only [List.mem_singleton] at hb
    subst hb
    exact h

/-- Witness for the amended C7: both samples succeed at 100 and 105
and the resulting bet has a non-null initial price. -/
theorem c7_amended_invariant_witness :
    ({ betWithInitial with finalPrice := JSVal.vnum 105 } : Bet).initialPrice ≠
      JSVal.vnull :=
  c7_amended_invariant_after_successful_initial event1 0 resp100 resp105
    [betWithInitial] [{ betWithInitial with finalPrice := JSVal.vnum 105 }]
    none (some { betId := 1
                 outcome := determineOutcome (JSVal.vnum 100) (JSVal.vnum 105) })
    (by decide)
    (fetchPriceAndUpdateBet_initial_singleton resp100
      { betId := 1
        finder := "0xF"
        tokenAddress := "0xT"
        startTime := 0
        totalBetAmount := 50
        initialPrice := JSVal.vnull
        finalPrice := JSVal.vnull
        settled := false
        outcome := JSVal.vnull }
      (by decide))
    (fetchPriceAndUpdateBet_final_singleton resp105 betWithInitial (by decide))
    { betWithInitial with finalPrice := JSVal.vnum 105 }
    (List.mem_singleton.mpr rfl) (by decide)

/-- C8: `fetchPrice` returns null (`NotAvailable`) whenever the
request fails or the feed lists no pair for the token, and a sample
step whose fetch is null leaves the store unchanged and triggers no
outcome computation or settlement. -/
theorem c8_notAvailable_does_not_advance :
    (∀ r : Option FeedResponse,
      (r = none ∨ ∃ fr : FeedResponse, r = some fr ∧
        (fr.pairs = none ∨ fr.pairs = some [])) →
      fetchPrice r = JSVal.vnull) ∧
    (∀ (r : Option FeedResponse) (betId : ℕ) (k : PriceKey) (store : Store),
      fetchPrice r = JSVal.vnull →
      fetchPriceAndUpdateBet r betId k store = some (store, none)) := by
  constructor
  · rintro r (rfl | ⟨fr, rfl, hp | hp⟩)
    · rfl
    · simp [fetchPrice, hp]
    · simp [fetchPrice, hp]
  · intro r betId k store h
    exact fetchPriceAndUpdateBet_of_null r betId k store h

/-- Witness for C8: the empty-pairs response yields null, and a failed
request leads to a sample step that changes nothing. -/
theorem c8_notAvailable_witness :
    fetchPrice (some { pairs := some [] }) = JSVal.vnull ∧
    fetchPriceAndUpdateBet none 2 PriceKey.initialPrice [staleBet] =
      some ([staleBet], none) :=
  ⟨c8_notAvailable_does_not_advance.1 (some { pairs := some [] })
      (Or.inr ⟨{ pairs := some [] }, rfl, Or.inr rfl⟩),
   c8_notAvailable_does_not_advance.2 none 2 PriceKey.initialPrice [staleBet] rfl⟩

/-- C9 counterexample: two settlement runs failing at different phases
(gas estimation versus gas price fetch) produce identical observable
output — the same untouched store, the same empty send list and the
very same generic log line — so what the code reports carries no
failing phase, refuting the claimed `SubmissionError` with a phase
attached. -/
theorem c9_counterexample_no_phase_in_report :
    failingPhase envEstimationFail 1 (some true) = some Phase.estimation ∧
    failingPhase envGasPriceFail 1 (some true) = some Phase.gasPriceFetch ∧
    settleBet envEstimationFail 1 (some true) [betWithBoth] =
      settleBet envGasPriceFail 1 (some true) [betWithBoth] := by
  decide

/-- C9 amended: when settlement submission fails at any phase the
store is untouched — `settled` and `outcome` keep their stored values
— no retry happens inside `settleBet`, and the failure is logged by
the single generic catch handler (without phase information). -/
theorem c9_amended_failure_leaves_state (env : ChainEnv) (betId : ℕ)
    (outcome : Option Bool) (store : Store) :
    (settleBet env betId outcome store).store = store ∧
    (∀ p : Phase, failingPhase env betId outcome = some p →
      ∃ e, (settleBet env betId outcome store).log = SettleLog.errorSettling e) := by
  obtain ⟨eg, gpf, sif, ssf⟩ := env
  rcases outcome with _ | b
  case none =>
    unfold settleBet failingPhase
    dsimp only
    rcases eg with e1 | g
    · exact ⟨rfl, fun p _ => ⟨e1, rfl⟩⟩
    · dsimp only
      rcases gpf with e2 | gp
      · exact ⟨rfl, fun p _ => ⟨e2, rfl⟩⟩
      · dsimp only
        rcases h3 : sif { data := TxData.settleBetNoChange betId
                          gas := g + g / 10
                          gasPrice := gp } with e3 | sg
        · simp [h3]
        · rcases h4 : ssf sg with e4 | rc
          · simp [h3, h4]
          · simp [h3, h4]
  case some =>
    unfold settleBet failingPhase
    dsimp only
    rcases eg with e1 | g
    · exact ⟨rfl, fun p _ => ⟨e1, rfl⟩⟩
    · dsimp only
      rcases gpf with e2 | gp
      · exact ⟨rfl, fun p _ => ⟨e2, rfl⟩⟩
      · dsimp only
        rcases h3 : sif { data := TxData.settleBet betId b
                          gas := g + g / 10
                          gasPrice := gp } with e3 | sg
        · simp [h3]
        · rcases h4 : ssf sg with e4 | rc
          · simp [h3, h4]
          · simp [h3, h4]

/-- Witness for the amended C9 at a concrete estimation failure. -/
theorem c9_amended_failure_witness :
    (settleBet envEstimationFail 1 (some true) [betWithBoth]).store = [betWithBoth] ∧
    (settleBet envEstimationFail 1 (some true) [betWithBoth]).log =
      SettleLog.errorSettling "boom" :=
  ⟨(c9_amended_failure_leaves_state envEstimationFail 1 (some true) [betWithBoth]).1,
   by decide⟩

/-- C10: a feed response with a non-empty pairs list whose first pair
lacks `priceUsd` makes `fetchPrice` return `undefined`; `undefined`
passes the `price !== null` guard, is written into the price field,
and on the final sample the bet proceeds to outcome computation
(which yields null, since every comparison against the NaN difference
is false) and to the settlement call. -/
theorem c10_undefined_price_passes_guard :
    fetchPrice respNoPriceUsd = JSVal.vundef ∧
    JSVal.vundef ≠ JSVal.vnull ∧
    fetchPriceAndUpdateBet respNoPriceUsd 1 PriceKey.finalPrice [betWithInitial] =
      some ([{ betWithInitial with finalPrice := JSVal.vundef }],
        some { betId := 1, outcome := none }) ∧
    determineOutcome (JSVal.vnum 100) JSVal.vundef = none := by
  decide

end PodServer
